import Mathlib

/-!
Verification of the psychograph-analyzer scoring pipeline.

Shallow embedding of the Python sources:
  * `dsm5_diagnostic.py`  — keyword scorer (`assess_disorder`) and ranking
    (`analyze_dsm5_diagnosis`), parametrised by the criteria database
    (in the source this is the fixed constant `DSM5_CRITERIA`; the
    ranking/scoring logic never inspects it beyond iteration).
  * `dsm5_diagnostic_ai.py` — the LLM scorer variant
    (`analyze_disorder_with_ai`), with the external service's parsed JSON
    response modelled as an explicit record.
  * `analyzer.py` — export loader (`find_message_files`,
    `load_instagram_export`) over an explicit filesystem model, and the
    transcript normaliser (`parse_thread`, `fix_encoding`).

Numbers: Python floats are modelled as `Rat`; `round(x, 1)` is modelled by
`pythonRound1` (round-half-to-even at one decimal, like Python's `round`).
Python exceptions (`ZeroDivisionError`, `FileNotFoundError`) are modelled by
`Option`/`Except`: a `none`/`.error` result means the Python code raised.
-/

namespace PsychoAnalyzer

/-! ## Python string helpers -/

/-- The set of characters stripped by Python's `str.strip()` (Unicode
whitespace as recognised by CPython). -/
def pyIsSpace (c : Char) : Bool :=
  let n := c.toNat
  (9 ≤ n && n ≤ 13) || (28 ≤ n && n ≤ 31) || n == 32 || n == 0x85 ||
    n == 0xA0 || n == 0x1680 || (0x2000 ≤ n && n ≤ 0x200A) ||
    n == 0x2028 || n == 0x2029 || n == 0x202F || n == 0x205F || n == 0x3000

/-- Python `str.strip()`: drop leading and trailing whitespace. -/
def pyStrip (s : String) : String :=
  ⟨((s.data.dropWhile pyIsSpace).reverse.dropWhile pyIsSpace).reverse⟩

/-- Python `not content or content.strip() == ""` in `parse_thread`:
true iff the string is empty or whitespace-only. -/
def contentBlank (s : String) : Bool :=
  s.data.all pyIsSpace

/-- Scan via `needle.isPrefixOf hay || ...`: Python's substring test `a in b`. -/
def substrInAux (needle : List Char) : List Char → Bool
  | [] => needle.isEmpty
  | h :: t => needle.isPrefixOf (h :: t) || substrInAux needle t

/-- Python `needle in hay` for strings (contiguous substring test). -/
def substrIn (needle hay : String) : Bool :=
  substrInAux needle.data hay.data

/-- Split a character list at every occurrence of `sep`
(Python `str.split` with a one-character separator: no collapsing,
`""` yields `[""]`). -/
def splitListOn (sep : Char) : List Char → List (List Char)
  | [] => [[]]
  | c :: t =>
    let rest := splitListOn sep t
    if c == sep then [] :: rest
    else
      match rest with
      | [] => [[c]]
      | h :: t' => (c :: h) :: t'

/-- Python `s.split(sep)` for a one-character separator. -/
def pySplit (sep : Char) (s : String) : List String :=
  (splitListOn sep s.data).map fun cs => ⟨cs⟩

/-- Python `s.startswith(pre)`. -/
def pyStartsWith (s pre : String) : Bool :=
  pre.data.isPrefixOf s.data

/-- Python `s.endswith(sfx)`. -/
def pyEndsWith (s sfx : String) : Bool :=
  sfx.data.reverse.isPrefixOf s.data.reverse

/-- ASCII lowering of one character (Python `str.lower`; the indicator
phrases and labels of this program are ASCII). -/
def charLower (c : Char) : Char :=
  if 65 ≤ c.toNat && c.toNat ≤ 90 then Char.ofNat (c.toNat + 32) else c

/-- Python `s.lower()`. -/
def pyLower (s : String) : String :=
  ⟨s.data.map charLower⟩

/-- If `pat` leads the list, return the remainder after it. -/
def stripLead : List Char → List Char → Option (List Char)
  | [], rest => some rest
  | _ :: _, [] => none
  | p :: ps, c :: t => if p == c then stripLead ps t else none

/-- Replace every occurrence of `pat`, scanning left to right; `fuel`
bounds the recursion (the hay's length suffices for a non-empty `pat`). -/
def replaceFuel (pat rep : List Char) : Nat → List Char → List Char
  | 0, l => l
  | fuel + 1, l =>
    match l with
    | [] => []
    | c :: t =>
      match stripLead pat (c :: t) with
      | some rest => rep ++ replaceFuel pat rep fuel rest
      | none => c :: replaceFuel pat rep fuel t

/-- Python `s.replace(pat, rep)` for a non-empty `pat`. -/
def pyReplace (s pat rep : String) : String :=
  ⟨replaceFuel pat.data rep.data s.data.length s.data⟩

/-- Lexicographic order on character lists by code point. -/
def charListLe : List Char → List Char → Bool
  | [], _ => true
  | _ :: _, [] => false
  | a :: as, b :: bs => if a == b then charListLe as bs else decide (a < b)

/-- Python string comparison `a <= b` (lexicographic by code points). -/
def strLeB (a b : String) : Bool :=
  charListLe a.data b.data

/-- Join strings with a separator (Python `sep.join(parts)`). -/
def joinWith (sep : String) : List String → String
  | [] => ""
  | [x] => x
  | x :: xs => x ++ sep ++ joinWith sep xs

/-! ## Python `round(x, 1)` on rationals -/

/-- Round a rational to the nearest integer, ties to even
(the rounding Python's `round` uses). -/
def roundHalfEven (x : ℚ) : ℤ :=
  let f : ℤ := ⌊x⌋
  let r : ℚ := x - f
  if r < 1/2 then f
  else if 1/2 < r then f + 1
  else if f % 2 = 0 then f else f + 1

/-- Python `round(x, 1)`: one decimal digit, ties to even. -/
def pythonRound1 (x : ℚ) : ℚ :=
  (roundHalfEven (x * 10) : ℚ) / 10

/-! ## Data model of the keyword scorer (`dsm5_diagnostic.py`) -/

/-- One criterion entry of a condition:
`{"text": ..., "indicators": [...]}`. -/
structure CriterionData where
  text : String
  indicators : List String
  deriving Repr, DecidableEq

/-- One condition entry of `DSM5_CRITERIA`.  `criteria` is an ordered
association list, mirroring the insertion-ordered Python dict.
`criteria_count_required`, `pdf_page` and `duration` are `Option`s because
the code reads them with `dict.get` and a default. -/
structure DisorderInfo where
  dsm_page : Nat
  pdf_page : Option Nat
  sectionName : String   -- Python key "section"; `section` is a Lean keyword
  criteria_count_required : Option Nat
  duration : Option String
  criteria : List (String × CriterionData)
  deriving Repr, DecidableEq

/-- An evidence item `{message, indicator_matched, criterion_id}`. -/
structure Evidence where
  message : String
  indicator_matched : String
  criterion_id : String
  deriving Repr, DecidableEq

/-- Per-criterion result record built by `assess_disorder`. -/
structure CriterionResult where
  criterion_text : String
  is_met : Bool
  evidence : List Evidence
  evidence_count : Nat
  deriving Repr, DecidableEq

/-- The per-condition assessment dict returned by `assess_disorder`
(and by `analyze_disorder_with_ai`). -/
structure ConditionAssessment where
  disorder_name : String
  dsm5_page : Nat
  pdf_page : Nat
  sectionName : String
  criteria_met : Nat
  total_criteria : Nat
  criteria_required : Nat
  criteria_met_percentage : ℚ
  meets_diagnostic_threshold : Bool
  confidence_level : String
  criteria_breakdown : List (String × CriterionResult)
  key_evidence : List Evidence
  duration_note : String
  clinical_interpretation : String
  deriving Repr, DecidableEq

/-- The dict returned by `analyze_dsm5_diagnosis`. -/
structure DiagnosticReport where
  primary_diagnosis : Option ConditionAssessment
  all_assessments : List ConditionAssessment
  disclaimer : String
  deriving Repr, DecidableEq

/-! ## The keyword scorer -/

/-- The evidence list one criterion accumulates: for each patient message
(in order), for each indicator (in order), a case-insensitive substring
match appends one evidence item.  The stored message has the
`[PATIENT]:` tag removed and is stripped. -/
def findEvidence (criterion_id : String) (indicators : List String)
    (patient_messages : List String) : List Evidence :=
  patient_messages.flatMap fun message =>
    (indicators.filter fun indicator =>
        substrIn (pyLower indicator) (pyLower message)).map fun indicator =>
      { message := pyStrip (pyReplace message "[PATIENT]:" "")
        indicator_matched := indicator
        criterion_id := criterion_id }

/-- The four-tier confidence table of `assess_disorder`
(inclusive lower bounds, checked in descending order). -/
def confidence_of (percentage : ℚ) : String :=
  if 80 ≤ percentage then "High"
  else if 60 ≤ percentage then "Moderate"
  else if 40 ≤ percentage then "Low"
  else "Very Low"

/-- Python `assess_disorder(disorder_name, disorder_info, patient_messages)`.
Returns `none` when the Python code raises: with zero criteria the
percentage computation `criteria_met_count / total_criteria` is a
`ZeroDivisionError`. -/
def assess_disorder (disorder_name : String) (disorder_info : DisorderInfo)
    (patient_messages : List String) : Option ConditionAssessment :=
  let criteria_results : List (String × CriterionResult) :=
    disorder_info.criteria.map fun p =>
      let ev := findEvidence p.1 p.2.indicators patient_messages
      (p.1, { criterion_text := p.2.text
              is_met := !ev.isEmpty
              evidence := ev.take 3
              evidence_count := ev.length })
  let criteria_met_count := (criteria_results.filter fun p => p.2.is_met).length
  let evidence_collection : List Evidence :=
    disorder_info.criteria.flatMap fun p =>
      let ev := findEvidence p.1 p.2.indicators patient_messages
      if ev.isEmpty then [] else ev.take 2
  let total_criteria := disorder_info.criteria.length
  let required_count := disorder_info.criteria_count_required.getD total_criteria
  let meets_threshold := decide (required_count ≤ criteria_met_count)
  if total_criteria = 0 then none
  else
    let percentage : ℚ := (criteria_met_count : ℚ) / (total_criteria : ℚ) * 100
    let confidence := confidence_of percentage
    some
      { disorder_name := disorder_name
        dsm5_page := disorder_info.dsm_page
        pdf_page := disorder_info.pdf_page.getD disorder_info.dsm_page
        sectionName := disorder_info.sectionName
        criteria_met := criteria_met_count
        total_criteria := total_criteria
        criteria_required := required_count
        criteria_met_percentage := pythonRound1 percentage
        meets_diagnostic_threshold := meets_threshold
        confidence_level := confidence
        criteria_breakdown := criteria_results
        key_evidence := evidence_collection.take 5
        duration_note := disorder_info.duration.getD "Not specified"
        clinical_interpretation :=
          (if meets_threshold then "Meets" else "Does not meet") ++
            " diagnostic criteria (" ++ toString criteria_met_count ++ "/" ++
            toString required_count ++ " criteria). " ++ confidence ++ " confidence." }

/-! ## Stable sorting (Python `list.sort` is stable; `reverse=True`
keeps ties in original order).  An insertion sort that inserts each new
head before the first already-placed element it may precede is the unique
stable sort, so it is observationally the same function. -/

/-- Insert `a` before the first element `b` with `le a b`. -/
def sInsert (le : α → α → Bool) (a : α) : List α → List α
  | [] => [a]
  | b :: t => if le a b then a :: b :: t else b :: sInsert le a t

/-- Stable insertion sort with respect to `le`. -/
def sSort (le : α → α → Bool) : List α → List α
  | [] => []
  | a :: t => sInsert le a (sSort le t)

/-! ## Ranking and selection (`analyze_dsm5_diagnosis`) -/

/-- Python `conversation_text.split('\n')` filtered to lines starting with
`[PATIENT]:`. -/
def patientLinesOf (conversation_text : String) : List String :=
  (pySplit '\n' conversation_text).filter fun m => pyStartsWith m "[PATIENT]:"

/-- Assess every disorder of the database in iteration order; `none` if any
single assessment raises. -/
def assessAll (db : List (String × DisorderInfo)) (patient_messages : List String) :
    Option (List ConditionAssessment) :=
  db.mapM fun p => assess_disorder p.1 p.2 patient_messages

/-- Fixed disclaimer attached to every report. -/
def disclaimerText : String :=
  "AI-assisted screening tool. Clinical diagnosis requires comprehensive evaluation by licensed professional."

/-- Python `analyze_dsm5_diagnosis(conversation_text, participant_name)`,
parametrised by the criteria database `db` (the source iterates the fixed
constant `DSM5_CRITERIA`).  Sorts assessments descending by
`criteria_met_percentage` (stable), and picks as primary the first sorted
assessment whose threshold is met. -/
def analyze_dsm5_diagnosis (db : List (String × DisorderInfo))
    (conversation_text : String) : Option DiagnosticReport :=
  match assessAll db (patientLinesOf conversation_text) with
  | none => none
  | some diagnoses_assessed =>
    let sorted := sSort
      (fun x y => decide (y.criteria_met_percentage ≤ x.criteria_met_percentage))
      diagnoses_assessed
    some
      { primary_diagnosis := sorted.find? fun d => d.meets_diagnostic_threshold
        all_assessments := sorted
        disclaimer := disclaimerText }

/-! ## The LLM scorer variant (`dsm5_diagnostic_ai.py`) -/

/-- One entry of the parsed service response's `criteria_met` mapping:
`{"is_met": ..., "evidence": quote-or-null, "rationale": ...}`. -/
structure AICritResult where
  is_met : Bool
  evidence : Option String
  rationale : String
  deriving Repr, DecidableEq

/-- The well-formed parsed JSON response of the external
semantic-evaluation service (`json.loads(raw)` in
`analyze_disorder_with_ai`). -/
structure AIResponse where
  criteria_met : List (String × AICritResult)
  total_criteria_met : Nat
  meets_threshold : Bool
  confidence : String
  clinical_notes : String
  deriving Repr, DecidableEq

/-- Python truthiness of `crit_result['evidence']`: `None` and `""` are
falsy. -/
def evTruthy : Option String → Bool
  | none => false
  | some s => !s.isEmpty

/-- Python `analyze_disorder_with_ai(conversation_text, disorder_name,
disorder_info)` after the service call succeeded and its response parsed to
`result`.  The surrounding `try/except` returns `None` on any exception:
a missing `criteria_count_required` key (`KeyError`) or an empty criteria
mapping (`ZeroDivisionError`) therefore yield `none`. -/
def analyze_disorder_with_ai (disorder_name : String)
    (disorder_info : DisorderInfo) (result : AIResponse) :
    Option ConditionAssessment :=
  let criteria_breakdown : List (String × CriterionResult) :=
    result.criteria_met.map fun p =>
      (p.1, { criterion_text :=
                (((disorder_info.criteria.lookup p.1).map (·.text)).getD "")
              is_met := p.2.is_met
              evidence :=
                if evTruthy p.2.evidence then
                  [{ message := p.2.evidence.getD ""
                     indicator_matched := "AI analysis"
                     criterion_id := p.1 }]
                else []
              evidence_count := if evTruthy p.2.evidence then 1 else 0 })
  let evidence_collection : List Evidence :=
    result.criteria_met.filterMap fun p =>
      if p.2.is_met && evTruthy p.2.evidence then
        some { message := p.2.evidence.getD ""
               indicator_matched := "AI analysis"
               criterion_id := p.1 }
      else none
  match disorder_info.criteria_count_required with
  | none => none
  | some required =>
    if disorder_info.criteria.length = 0 then none
    else
      let total_met := result.total_criteria_met
      let percentage : ℚ :=
        (total_met : ℚ) / (disorder_info.criteria.length : ℚ) * 100
      some
        { disorder_name := disorder_name
          dsm5_page := disorder_info.dsm_page
          pdf_page := disorder_info.pdf_page.getD disorder_info.dsm_page
          sectionName := disorder_info.sectionName
          criteria_met := total_met
          total_criteria := disorder_info.criteria.length
          criteria_required := required
          criteria_met_percentage := pythonRound1 percentage
          meets_diagnostic_threshold := result.meets_threshold
          confidence_level := result.confidence
          criteria_breakdown := criteria_breakdown
          key_evidence := evidence_collection.take 5
          duration_note := disorder_info.duration.getD "Not specified"
          clinical_interpretation := result.clinical_notes }

/-! ## Export loader (`analyzer.py`) over an explicit filesystem model -/

/-- One participant entry `{"name": ...}`. -/
structure Participant where
  name : String
  deriving Repr, DecidableEq

/-- One raw message record of an export file (fields read with
`dict.get` in the source, hence `Option`s). -/
structure RawMsg where
  sender_name : Option String
  content : Option String
  timestamp_ms : Option Int
  deriving Repr, DecidableEq

/-- The parsed JSON payload of one export file.  `load_single_file`'s
utf-8/latin-1 fallback only affects how bytes become this payload, so the
model stores the parsed payload directly. -/
structure FileData where
  participants : Option (List Participant)
  messages : Option (List RawMsg)
  title : Option String
  deriving Repr, DecidableEq

/-- A file of the modelled filesystem: a `/`-separated path and its parsed
payload. -/
structure FSFile where
  path : String
  data : FileData
  deriving Repr, DecidableEq

/-- The filesystem a run sees: regular files with contents, plus the set of
existing directories.  Paths are normalised (`/`-separated, no trailing
slash). -/
structure FS where
  files : List FSFile
  dirs : List String
  deriving Repr, DecidableEq

/-- Python `os.path.isfile`. -/
def FS.isFile (fs : FS) (p : String) : Bool :=
  fs.files.any fun f => f.path == p

/-- Python `os.path.isdir`. -/
def FS.isDir (fs : FS) (p : String) : Bool :=
  fs.dirs.contains p

/-- Parsed payload of the file at `p` (files passed to it always exist). -/
def FS.readFile (fs : FS) (p : String) : FileData :=
  (((fs.files.find? fun f => f.path == p).map (·.data)).getD
    { participants := none, messages := none, title := none })

/-- Python `os.path.basename`: the last `/`-separated component. -/
def baseName (p : String) : String :=
  (pySplit '/' p).getLastD p

/-- Python `os.path.dirname`: everything before the last `/` (empty if none). -/
def dirName (p : String) : String :=
  let parts := pySplit '/' p
  if parts.length ≤ 1 then "" else joinWith "/" parts.dropLast

/-- All file paths strictly below directory `dir` (any depth): the
candidate set of `glob.glob(os.path.join(dir, "**", pat), recursive=True)`. -/
def FS.filesUnder (fs : FS) (dir : String) : List String :=
  (fs.files.map (·.path)).filter fun p => pyStartsWith p (dir ++ "/")

/-- Python `fnmatch` of a basename against `message_*.json` (glob `*` matches any
run of characters here, including the empty one). -/
def matchesMessageJson (b : String) : Bool :=
  pyStartsWith b "message_" && pyEndsWith b ".json" && decide (13 ≤ b.data.length)

/-- Python `fnmatch` of a basename against `*.json`; a leading `*` in glob does
not match hidden files. -/
def matchesAnyJson (b : String) : Bool :=
  !pyStartsWith b "." && pyEndsWith b ".json"

/-- Python `sorted` on strings: stable, lexicographic by code points. -/
def sortedStrings (l : List String) : List String :=
  sSort strLeB l

/-- Python `find_message_files(path)`.  `.error` models the raised
`FileNotFoundError` (only hit when `path` is neither a `.json` file nor an
existing directory); an existing directory with no matches returns
`.ok []`. -/
def find_message_files (fs : FS) (path : String) : Except String (List String) :=
  if fs.isFile path && pyEndsWith path ".json" then .ok [path]
  else if fs.isDir path then
    let under := fs.filesUnder path
    let msgFiles := under.filter fun p => matchesMessageJson (baseName p)
    let chosen :=
      if msgFiles.isEmpty then under.filter fun p => matchesAnyJson (baseName p)
      else msgFiles
    .ok (sortedStrings chosen)
  else .error ("Could not find any message files at: " ++ path)

/-- Group a list of file paths by `dirname`, keeping first-occurrence
order of the folders (Python `defaultdict` insertion order). -/
def addToGroup (groups : List (String × List String)) (k v : String) :
    List (String × List String) :=
  match groups with
  | [] => [(k, [v])]
  | (k', vs) :: rest =>
    if k' == k then (k', vs ++ [v]) :: rest else (k', vs) :: addToGroup rest k v

/-- Python `threads[os.path.dirname(fp)].append(fp)` over the file list. -/
def groupByFolder (files : List String) : List (String × List String) :=
  files.foldl (fun g fp => addToGroup g (dirName fp) fp) []

/-- One merged conversation thread record. -/
structure ThreadData where
  participants : List Participant
  messages : List RawMsg
  title : String
  deriving Repr, DecidableEq

/-- Python dict assignment `d[k] = v`: replace in place, else append. -/
def dictUpsert : List (String × ThreadData) → String → ThreadData →
    List (String × ThreadData)
  | [], k, v => [(k, v)]
  | (k', v') :: rest, k, v =>
    if k' == k then (k, v) :: rest else (k', v') :: dictUpsert rest k v

/-- The inner loop of `load_instagram_export` merging one thread's part
files: iterate `sorted(filepaths)`; take participants from the first file
whose payload supplies a (non-empty) list, overwrite the title whenever a
file supplies one, and concatenate all message lists. -/
def mergeThreadFiles (fs : FS) (thread_name : String) (filepaths : List String) :
    ThreadData :=
  (sortedStrings filepaths).foldl
    (fun acc fp =>
      let data := fs.readFile fp
      { participants :=
          if acc.participants.isEmpty then
            (data.participants.getD acc.participants)
          else acc.participants
        messages := acc.messages ++ data.messages.getD []
        title := data.title.getD acc.title })
    { participants := [], messages := [], title := thread_name }

/-- Python `load_instagram_export(path)`: find the files, group them by parent
folder, and merge each group; `.error` models the raised
`FileNotFoundError`. -/
def load_instagram_export (fs : FS) (path : String) :
    Except String (List (String × ThreadData)) :=
  (find_message_files fs path).map fun files =>
    (groupByFolder files).foldl
      (fun merged p =>
        dictUpsert merged (baseName p.1) (mergeThreadFiles fs (baseName p.1) p.2))
      []

/-! ## Transcript normaliser (`parse_thread`, `fix_encoding`) -/

/-- Python `text.encode("latin-1")`: fails when any character is above
U+00FF. -/
def latin1Encode (s : String) : Option (List Nat) :=
  s.data.mapM fun c => if c.toNat ≤ 0xFF then some c.toNat else none

/-- Strict UTF-8 decoding of a byte list (as Python `bytes.decode("utf-8")`:
rejects continuation errors, overlong forms, surrogates and values above
U+10FFFF). -/
def utf8Decode : List Nat → Option (List Char)
  | [] => some []
  | b :: rest =>
    if b < 0x80 then
      (utf8Decode rest).map fun cs => Char.ofNat b :: cs
    else if b < 0xC2 then none
    else if b < 0xE0 then
      match rest with
      | c1 :: rest' =>
        if 0x80 ≤ c1 && c1 < 0xC0 then
          (utf8Decode rest').map fun cs =>
            Char.ofNat ((b - 0xC0) * 0x40 + (c1 - 0x80)) :: cs
        else none
      | [] => none
    else if b < 0xF0 then
      match rest with
      | c1 :: c2 :: rest' =>
        if 0x80 ≤ c1 && c1 < 0xC0 && 0x80 ≤ c2 && c2 < 0xC0 then
          let code := (b - 0xE0) * 0x1000 + (c1 - 0x80) * 0x40 + (c2 - 0x80)
          if 0x800 ≤ code && !(0xD800 ≤ code && code ≤ 0xDFFF) then
            (utf8Decode rest').map fun cs => Char.ofNat code :: cs
          else none
        else none
      | _ => none
    else if b < 0xF5 then
      match rest with
      | c1 :: c2 :: c3 :: rest' =>
        if 0x80 ≤ c1 && c1 < 0xC0 && 0x80 ≤ c2 && c2 < 0xC0 &&
            0x80 ≤ c3 && c3 < 0xC0 then
          let code := (b - 0xF0) * 0x40000 + (c1 - 0x80) * 0x1000 +
            (c2 - 0x80) * 0x40 + (c3 - 0x80)
          if 0x10000 ≤ code && code ≤ 0x10FFFF then
            (utf8Decode rest').map fun cs => Char.ofNat code :: cs
          else none
        else none
      | _ => none
    else none

/-- Python `fix_encoding(text)`: re-decode mojibake
(`text.encode("latin-1").decode("utf-8")`); on any failure return the text
unchanged. -/
def fix_encoding (text : String) : String :=
  match latin1Encode text with
  | none => text
  | some bytes =>
    match utf8Decode bytes with
    | none => text
    | some cs => ⟨cs⟩

/-- One cleaned message dict built by `parse_thread`. -/
structure CleanMsg where
  sender : String
  content : String
  timestamp : Int
  is_patient : Bool
  deriving Repr, DecidableEq

/-- The record built for a retained message: defaults for missing fields,
mojibake repair on the content, `is_patient` by exact sender match. -/
def cleanMsgCore (patient_name : String) (msg : RawMsg) : CleanMsg :=
  { sender := msg.sender_name.getD "Unknown"
    content := fix_encoding (msg.content.getD "")
    timestamp := msg.timestamp_ms.getD 0
    is_patient := msg.sender_name.getD "Unknown" == patient_name }

/-- The cleaning step applied to one raw message; `none` when the message
is skipped for blank content. -/
def cleanMsg (patient_name : String) (msg : RawMsg) : Option CleanMsg :=
  if contentBlank (msg.content.getD "") then none
  else some (cleanMsgCore patient_name msg)

/-- Python `parse_thread(thread_data, patient_name)`: clean and filter the raw
messages, then sort ascending by timestamp (stable). -/
def parse_thread (thread_data : ThreadData) (patient_name : String) :
    List CleanMsg :=
  sSort (fun x y => decide (x.timestamp ≤ y.timestamp))
    (thread_data.messages.filterMap (cleanMsg patient_name))

/-! ## Concrete fixtures used by witnesses and counterexamples -/

/-- A condition with one criterion, required count 1 (a cut-down
"Generalized Anxiety Disorder" entry in the shape of `DSM5_CRITERIA`). -/
def infoGAD : DisorderInfo :=
  { dsm_page := 222
    pdf_page := some 264
    sectionName := "Anxiety Disorders"
    criteria_count_required := some 1
    duration := some "6 months"
    criteria := [("A", { text := "Excessive anxiety and worry"
                         indicators := ["worried", "anxious"] })] }

/-- A two-criterion condition whose indicators match nothing in the
fixture transcript. -/
def infoPanic2 : DisorderInfo :=
  { dsm_page := 208
    pdf_page := some 250
    sectionName := "Anxiety Disorders"
    criteria_count_required := some 1
    duration := none
    criteria := [("A", { text := "Recurrent unexpected panic attacks"
                         indicators := ["random attack"] }),
                 ("A1", { text := "Palpitations"
                          indicators := ["heart was racing"] })] }

/-- A condition with an empty criteria mapping and a positive required
count. -/
def infoNoCriteriaReq1 : DisorderInfo :=
  { dsm_page := 1, pdf_page := none, sectionName := "Test"
    criteria_count_required := some 1, duration := none, criteria := [] }

/-- A condition with an empty criteria mapping and no explicit required
count. -/
def infoNoCriteria : DisorderInfo :=
  { dsm_page := 2, pdf_page := none, sectionName := "Test"
    criteria_count_required := none, duration := none, criteria := [] }

/-- Fallback record used only to name the value inside a `some`. -/
def zeroAssessment : ConditionAssessment :=
  { disorder_name := "", dsm5_page := 0, pdf_page := 0, sectionName := ""
    criteria_met := 0, total_criteria := 0, criteria_required := 0
    criteria_met_percentage := 0, meets_diagnostic_threshold := false
    confidence_level := "", criteria_breakdown := [], key_evidence := []
    duration_note := "", clinical_interpretation := "" }

/-- Fallback report used only to name the value inside a `some`. -/
def emptyReport : DiagnosticReport :=
  { primary_diagnosis := none, all_assessments := [], disclaimer := "" }

/-- Patient lines of the fixture transcript. -/
def msgsW : List String := ["[PATIENT]: i am so worried about everything"]

/-- The assessment the keyword scorer returns on the fixture. -/
def aW : ConditionAssessment :=
  (assess_disorder "Generalized Anxiety Disorder" infoGAD msgsW).getD zeroAssessment

/-- A two-condition criteria database fixture. -/
def db0 : List (String × DisorderInfo) :=
  [("Generalized Anxiety Disorder", infoGAD), ("Panic Disorder", infoPanic2)]

/-- A fixture transcript with one patient line and one other line. -/
def text0 : String := "[PATIENT]: i am so worried about everything\n[OTHER]: ok"

/-- A second transcript with the same patient lines and no other lines. -/
def text1 : String := "[PATIENT]: i am so worried about everything"

/-- The report `analyze_dsm5_diagnosis` produces on the fixture. -/
def r0 : DiagnosticReport :=
  (analyze_dsm5_diagnosis db0 text0).getD emptyReport

/-- The unsorted assessment list on the fixture. -/
def base0 : List ConditionAssessment :=
  (assessAll db0 (patientLinesOf text0)).getD []

/-- A two-criterion condition for the LLM-variant fixtures. -/
def infoAI : DisorderInfo :=
  { dsm_page := 5, pdf_page := none, sectionName := "Test"
    criteria_count_required := some 1, duration := none
    criteria := [("A1", { text := "first criterion", indicators := [] }),
                 ("A2", { text := "second criterion", indicators := [] })] }

/-- A well-formed service response whose judgment fields contradict the
keyword scorer's formulas: zero criteria met, yet threshold claimed met
and confidence "High". -/
def respBad : AIResponse :=
  { criteria_met := [("A1", { is_met := false, evidence := none
                              rationale := "no evidence" })]
    total_criteria_met := 0
    meets_threshold := true
    confidence := "High"
    clinical_notes := "test" }

/-- The assessment the LLM scorer builds from `respBad`. -/
def aAI : ConditionAssessment :=
  (analyze_disorder_with_ai "Test Disorder" infoAI respBad).getD zeroAssessment

/-- Participants of the loader fixtures. -/
def partA : Participant := { name := "Taylor" }

/-- Second participant of the loader fixtures. -/
def partB : Participant := { name := "Sam" }

/-- The single message of part file 2. -/
def m2 : RawMsg :=
  { sender_name := some "Taylor", content := some "message from part two"
    timestamp_ms := some 2000 }

/-- The single message of part file 10. -/
def m10 : RawMsg :=
  { sender_name := some "Taylor", content := some "message from part ten"
    timestamp_ms := some 10000 }

/-- A filesystem with one conversation folder split into part files 2 and
10. -/
def fs5 : FS :=
  { files := [
      { path := "root/conv/message_2.json"
        data := { participants := some [partA, partB]
                  messages := some [m2], title := some "Sam" } },
      { path := "root/conv/message_10.json"
        data := { participants := some [partA, partB]
                  messages := some [m10], title := some "Sam" } } ]
    dirs := ["root", "root/conv"] }

/-- A filesystem whose root directory exists but contains no JSON file at
any depth. -/
def fs6 : FS :=
  { files := [
      { path := "empty/sub/notes.txt"
        data := { participants := none, messages := none, title := none } } ]
    dirs := ["empty", "empty/sub"] }

/-! ## Lemmas about the stable insertion sort -/

theorem sInsert_perm {α : Type*} (le : α → α → Bool) (a : α) (l : List α) :
    (sInsert le a l).Perm (a :: l) := by
  induction l with
  | nil => simp [sInsert]
  | cons b t ih =>
    simp only [sInsert]
    split
    · exact List.Perm.refl _
    · exact (ih.cons b).trans (List.Perm.swap a b t)

theorem sSort_perm {α : Type*} (le : α → α → Bool) (l : List α) :
    (sSort le l).Perm l := by
  induction l with
  | nil => simp [sSort]
  | cons a t ih => exact (sInsert_perm le a (sSort le t)).trans (ih.cons a)

theorem sInsert_pairwise {α : Type*} (le : α → α → Bool)
    (htot : ∀ x y, le x y = false → le y x = true)
    (htrans : ∀ x y z, le x y = true → le y z = true → le x z = true)
    (a : α) (l : List α) (hl : l.Pairwise fun x y => le x y = true) :
    (sInsert le a l).Pairwise fun x y => le x y = true := by
  induction l with
  | nil => simp [sInsert]
  | cons b t ih =>
    obtain ⟨hb, ht⟩ := List.pairwise_cons.mp hl
    simp only [sInsert]
    by_cases h : le a b = true
    · rw [if_pos h]
      refine List.Pairwise.cons ?_ (List.Pairwise.cons hb ht)
      intro x hx
      rcases List.mem_cons.mp hx with rfl | hx
      · exact h
      · exact htrans a b x h (hb x hx)
    · rw [if_neg h]
      refine List.Pairwise.cons ?_ (ih ht)
      intro x hx
      have hx' := (sInsert_perm le a t).mem_iff.mp hx
      rcases List.mem_cons.mp hx' with rfl | hx'
      · exact htot _ b (Bool.eq_false_iff.mpr h)
      · exact hb x hx'

theorem sSort_pairwise {α : Type*} (le : α → α → Bool)
    (htot : ∀ x y, le x y = false → le y x = true)
    (htrans : ∀ x y z, le x y = true → le y z = true → le x z = true)
    (l : List α) : (sSort le l).Pairwise fun x y => le x y = true := by
  induction l with
  | nil => simp [sSort]
  | cons a t ih => exact sInsert_pairwise le htot htrans a (sSort le t) ih

theorem sInsert_filter {α : Type*} (le : α → α → Bool) (q : α → Bool) (a : α)
    (hq : ∀ b, le a b = false → q a = true → q b = false) (l : List α) :
    (sInsert le a l).filter q = if q a then a :: l.filter q else l.filter q := by
  induction l with
  | nil => simp [sInsert, List.filter_cons, List.filter_nil]
  | cons b t ih =>
    simp only [sInsert]
    by_cases h : le a b = true
    · rw [if_pos h]
      simp [List.filter_cons]
    · rw [if_neg h]
      have hf : le a b = false := Bool.eq_false_iff.mpr h
      by_cases hqa : q a = true
      · have hqb : q b = false := hq b hf hqa
        simp [List.filter_cons, hqa, hqb, ih]
      · have hqa' : q a = false := Bool.eq_false_iff.mpr hqa
        simp [List.filter_cons, hqa', ih]

theorem sSort_filter {α : Type*} (le : α → α → Bool) (q : α → Bool)
    (hq : ∀ x y, le x y = false → q x = true → q y = false) (l : List α) :
    (sSort le l).filter q = l.filter q := by
  induction l with
  | nil => rfl
  | cons a t ih =>
    simp only [sSort]
    rw [sInsert_filter le q a (hq a) (sSort le t), ih, List.filter_cons]

/-! ## Inversion helper for `assess_disorder` -/

/-- Field equations holding for every assessment `assess_disorder`
returns. -/
theorem assess_disorder_fields (disorder_name : String)
    (info : DisorderInfo) (msgs : List String) (a : ConditionAssessment)
    (h : assess_disorder disorder_name info msgs = some a) :
    a.criteria_met ≤ a.total_criteria ∧
      a.total_criteria = info.criteria.length ∧
      a.criteria_required = info.criteria_count_required.getD info.criteria.length ∧
      a.meets_diagnostic_threshold =
        decide (a.criteria_required ≤ a.criteria_met) ∧
      a.criteria_met_percentage =
        pythonRound1 ((a.criteria_met : ℚ) / (a.total_criteria : ℚ) * 100) ∧
      a.confidence_level =
        confidence_of ((a.criteria_met : ℚ) / (a.total_criteria : ℚ) * 100) := by
  simp only [assess_disorder] at h
  split at h
  · exact absurd h (by simp)
  · rw [Option.some.injEq] at h
    subst h
    refine ⟨le_trans (List.length_filter_le _ _) (by simp), rfl, rfl, rfl, rfl, rfl⟩

/-! ## C1 — bounds and percentage formula of `assess_disorder` -/

/-- C1: for every condition and list of subject lines, the assessment
returned by `assess_disorder` satisfies
`0 ≤ criteria_met ≤ total_criteria`, and its `criteria_met_percentage`
equals `round(criteria_met / total_criteria * 100, 1)` exactly. -/
theorem assess_disorder_bounds_and_percentage (disorder_name : String)
    (info : DisorderInfo) (msgs : List String) (a : ConditionAssessment)
    (h : assess_disorder disorder_name info msgs = some a) :
    0 ≤ a.criteria_met ∧ a.criteria_met ≤ a.total_criteria ∧
      a.criteria_met_percentage =
        pythonRound1 ((a.criteria_met : ℚ) / (a.total_criteria : ℚ) * 100) := by
  obtain ⟨h1, -, -, -, h5, -⟩ :=
    assess_disorder_fields disorder_name info msgs a h
  exact ⟨Nat.zero_le _, h1, h5⟩

/-- Witness for C1 at a concrete condition and transcript. -/
theorem assess_disorder_bounds_and_percentage_witness :
    assess_disorder "Generalized Anxiety Disorder" infoGAD msgsW = some aW ∧
      (0 ≤ aW.criteria_met ∧ aW.criteria_met ≤ aW.total_criteria ∧
        aW.criteria_met_percentage =
          pythonRound1 ((aW.criteria_met : ℚ) / (aW.total_criteria : ℚ) * 100)) :=
  ⟨rfl, assess_disorder_bounds_and_percentage
    "Generalized Anxiety Disorder" infoGAD msgsW aW rfl⟩

/-! ## C2 — threshold decision of `assess_disorder` -/

/-- C2, as stated, is false: with an empty criteria mapping and required
count 1 (so required exceeds total), the percentage computation divides by
zero and the Python code raises `ZeroDivisionError` instead of returning
`meets_diagnostic_threshold = false`; `none` models the raise. -/
theorem assess_disorder_required_exceeds_total_raises :
    assess_disorder "Impossible" infoNoCriteriaReq1 [] = none := rfl

/-- C2 (amended): `meets_diagnostic_threshold` equals
`criteria_met ≥ criteria_required` whenever an assessment is returned, and
is false whenever the required count exceeds the total; the no-exception
guarantee holds provided the condition defines at least one criterion. -/
theorem assess_disorder_threshold (disorder_name : String)
    (info : DisorderInfo) (msgs : List String) :
    (∀ a : ConditionAssessment,
        assess_disorder disorder_name info msgs = some a →
          a.meets_diagnostic_threshold =
              decide (a.criteria_required ≤ a.criteria_met) ∧
            (a.total_criteria < a.criteria_required →
              a.meets_diagnostic_threshold = false)) ∧
      (info.criteria ≠ [] →
        (assess_disorder disorder_name info msgs).isSome = true) := by
  constructor
  · intro a h
    obtain ⟨h1, -, -, h4, -, -⟩ :=
      assess_disorder_fields disorder_name info msgs a h
    refine ⟨h4, ?_⟩
    intro hlt
    rw [h4]
    exact decide_eq_false (by omega)
  · intro hne
    simp only [assess_disorder]
    split
    · next htc => exact absurd (List.length_eq_zero.mp htc) hne
    · rfl

/-- Witness for C2 (amended) at a concrete condition and transcript. -/
theorem assess_disorder_threshold_witness :
    assess_disorder "Generalized Anxiety Disorder" infoGAD msgsW = some aW ∧
      aW.meets_diagnostic_threshold =
        decide (aW.criteria_required ≤ aW.criteria_met) ∧
      (aW.total_criteria < aW.criteria_required →
        aW.meets_diagnostic_threshold = false) ∧
      infoGAD.criteria ≠ [] ∧
      (assess_disorder "Generalized Anxiety Disorder" infoGAD msgsW).isSome = true :=
  ⟨rfl,
    ((assess_disorder_threshold "Generalized Anxiety Disorder" infoGAD msgsW).1
      aW rfl).1,
    ((assess_disorder_threshold "Generalized Anxiety Disorder" infoGAD msgsW).1
      aW rfl).2,
    by decide,
    (assess_disorder_threshold "Generalized Anxiety Disorder" infoGAD msgsW).2
      (by decide)⟩

/-! ## C4 — confidence tiers -/

/-- C4: the confidence tier of every returned assessment is derived from
the percentage met by the four-tier table with inclusive lower bounds
checked in descending order; exactly 80 gives "High", exactly 60 gives
"Moderate", exactly 40 gives "Low", and 39.9 gives "Very Low". -/
theorem assess_disorder_confidence (disorder_name : String)
    (info : DisorderInfo) (msgs : List String) (a : ConditionAssessment)
    (h : assess_disorder disorder_name info msgs = some a) :
    a.confidence_level =
        confidence_of ((a.criteria_met : ℚ) / (a.total_criteria : ℚ) * 100) ∧
      confidence_of 80 = "High" ∧ confidence_of 60 = "Moderate" ∧
      confidence_of 40 = "Low" ∧ confidence_of (399/10) = "Very Low" := by
  refine ⟨?_, by norm_num [confidence_of], by norm_num [confidence_of],
    by norm_num [confidence_of], by norm_num [confidence_of]⟩
  exact (assess_disorder_fields disorder_name info msgs a h).2.2.2.2.2

/-- Witness for C4 at a concrete condition and transcript. -/
theorem assess_disorder_confidence_witness :
    assess_disorder "Generalized Anxiety Disorder" infoGAD msgsW = some aW ∧
      aW.confidence_level =
        confidence_of ((aW.criteria_met : ℚ) / (aW.total_criteria : ℚ) * 100) :=
  ⟨rfl, (assess_disorder_confidence
    "Generalized Anxiety Disorder" infoGAD msgsW aW rfl).1⟩

/-! ## C7 — a condition with zero criteria -/

/-- C7, as stated, is false: on a condition whose criteria mapping is
empty, `assess_disorder` does not return an always-0%-never-met
assessment; the percentage computation raises `ZeroDivisionError`
(modelled as `none`). -/
theorem assess_disorder_zero_criteria_cx :
    assess_disorder "Empty Condition" infoNoCriteria ["[PATIENT]: hello"] = none :=
  rfl

/-- C7 (amended): on every condition whose criteria mapping is empty,
`assess_disorder` raises (returns no assessment), for every transcript. -/
theorem assess_disorder_zero_criteria (disorder_name : String)
    (info : DisorderInfo) (msgs : List String) (hc : info.criteria = []) :
    assess_disorder disorder_name info msgs = none := by
  simp [assess_disorder, hc]

/-- Witness for C7 (amended) at a concrete condition and transcript. -/
theorem assess_disorder_zero_criteria_witness :
    infoNoCriteriaReq1.criteria = [] ∧
      assess_disorder "Another Empty" infoNoCriteriaReq1 msgsW = none :=
  ⟨rfl, assess_disorder_zero_criteria "Another Empty" infoNoCriteriaReq1 msgsW rfl⟩

/-! ## C3 — ranking and primary selection -/

/-- C3: over any criteria database, the report's `all_assessments` is the
assessed list sorted descending by `criteria_met_percentage`, the sort is
stable (equal percentages keep database iteration order, expressed as
filter preservation), `primary_diagnosis` is the first sorted assessment
meeting its threshold, and it is `none` when no assessment meets its
threshold (no error). -/
theorem analyze_dsm5_ranking (db : List (String × DisorderInfo))
    (text : String) (r : DiagnosticReport) (base : List ConditionAssessment)
    (h : analyze_dsm5_diagnosis db text = some r)
    (hbase : assessAll db (patientLinesOf text) = some base) :
    r.all_assessments.Pairwise
        (fun x y => y.criteria_met_percentage ≤ x.criteria_met_percentage) ∧
      r.all_assessments.Perm base ∧
      (∀ p : ℚ, r.all_assessments.filter
          (fun a => decide (a.criteria_met_percentage = p)) =
        base.filter (fun a => decide (a.criteria_met_percentage = p))) ∧
      r.primary_diagnosis =
        r.all_assessments.find? (fun a => a.meets_diagnostic_threshold) ∧
      ((∀ a ∈ r.all_assessments, a.meets_diagnostic_threshold = false) →
        r.primary_diagnosis = none) := by
  unfold analyze_dsm5_diagnosis at h
  split at h
  · exact absurd h (by simp)
  · next d heq =>
    have hd : d = base := by
      rw [hbase] at heq
      exact (Option.some.injEq _ _).mp heq.symm
    rw [hd] at h
    rw [Option.some.injEq] at h
    subst h
    have htot : ∀ x y : ConditionAssessment,
        (decide (y.criteria_met_percentage ≤ x.criteria_met_percentage)) = false →
        (decide (x.criteria_met_percentage ≤ y.criteria_met_percentage)) = true := by
      intro x y hxy
      rw [decide_eq_false_iff_not] at hxy
      exact decide_eq_true (le_of_not_le hxy)
    have htrans : ∀ x y z : ConditionAssessment,
        (decide (y.criteria_met_percentage ≤ x.criteria_met_percentage)) = true →
        (decide (z.criteria_met_percentage ≤ y.criteria_met_percentage)) = true →
        (decide (z.criteria_met_percentage ≤ x.criteria_met_percentage)) = true := by
      intro x y z h1 h2
      exact decide_eq_true (le_trans (of_decide_eq_true h2) (of_decide_eq_true h1))
    refine ⟨?_, ?_, ?_, rfl, ?_⟩
    · exact (sSort_pairwise _ htot htrans base).imp fun hb => of_decide_eq_true hb
    · exact sSort_perm _ base
    · intro p
      refine sSort_filter _ _ ?_ base
      intro x y hxy hx
      rw [decide_eq_false_iff_not] at hxy
      rw [decide_eq_true_eq] at hx
      refine decide_eq_false ?_
      intro hy
      exact hxy (le_of_eq (hy.trans hx.symm))
    · intro hall
      refine List.find?_eq_none.mpr ?_
      intro x hx
      simp [hall x hx]

/-- Witness for C3 at a concrete two-condition database and transcript. -/
theorem analyze_dsm5_ranking_witness :
    analyze_dsm5_diagnosis db0 text0 = some r0 ∧
      assessAll db0 (patientLinesOf text0) = some base0 ∧
      (r0.all_assessments.Pairwise
          (fun x y => y.criteria_met_percentage ≤ x.criteria_met_percentage) ∧
        r0.all_assessments.Perm base0 ∧
        (∀ p : ℚ, r0.all_assessments.filter
            (fun a => decide (a.criteria_met_percentage = p)) =
          base0.filter (fun a => decide (a.criteria_met_percentage = p))) ∧
        r0.primary_diagnosis =
          r0.all_assessments.find? (fun a => a.meets_diagnostic_threshold) ∧
        ((∀ a ∈ r0.all_assessments, a.meets_diagnostic_threshold = false) →
          r0.primary_diagnosis = none)) :=
  ⟨rfl, rfl, analyze_dsm5_ranking db0 text0 r0 base0 rfl rfl⟩

/-! ## C10 — only patient-labeled lines influence the report -/

/-- C10: the diagnostic report depends only on the sequence of
`[PATIENT]:`-labeled lines of the conversation text; two texts with the
same patient lines yield identical reports over every database. -/
theorem analyze_dsm5_patient_lines_only (db : List (String × DisorderInfo))
    (t1 t2 : String) (h : patientLinesOf t1 = patientLinesOf t2) :
    analyze_dsm5_diagnosis db t1 = analyze_dsm5_diagnosis db t2 := by
  unfold analyze_dsm5_diagnosis
  rw [h]

/-- Witness for C10: the fixture transcripts differ in their other-party
line but share the patient lines. -/
theorem analyze_dsm5_patient_lines_only_witness :
    patientLinesOf text0 = patientLinesOf text1 ∧
      analyze_dsm5_diagnosis db0 text0 = analyze_dsm5_diagnosis db0 text1 :=
  ⟨rfl, analyze_dsm5_patient_lines_only db0 text0 text1 rfl⟩

/-! ## C8 — the LLM scorer variant's derived fields -/

/-- C8, as stated, is false: `analyze_disorder_with_ai` copies the
service's `meets_threshold` and `confidence` verbatim instead of deriving
them by the keyword scorer's formulas.  On this well-formed response the
returned assessment claims the threshold met although
`criteria_met < criteria_required`, and reports "High" confidence although
the four-tier table at its percentage gives "Very Low". -/
theorem analyze_disorder_with_ai_passthrough_cx :
    analyze_disorder_with_ai "Test Disorder" infoAI respBad = some aAI ∧
      aAI.meets_diagnostic_threshold = true ∧
      decide (aAI.criteria_required ≤ aAI.criteria_met) = false ∧
      aAI.confidence_level = "High" ∧
      confidence_of ((aAI.criteria_met : ℚ) / (aAI.total_criteria : ℚ) * 100) =
        "Very Low" := by
  refine ⟨rfl, rfl, rfl, rfl, ?_⟩
  show confidence_of ((0 : ℚ) / (2 : ℚ) * 100) = "Very Low"
  norm_num [confidence_of]

/-- C8 (amended): for every well-formed service response, the LLM scorer's
assessment derives `criteria_met_percentage` by the keyword scorer's
formula from the response's reported criteria count, while
`meets_diagnostic_threshold` and `confidence_level` are taken verbatim
from the response (not recomputed from count and percentage). -/
theorem analyze_disorder_with_ai_fields (disorder_name : String)
    (info : DisorderInfo) (resp : AIResponse) (a : ConditionAssessment)
    (h : analyze_disorder_with_ai disorder_name info resp = some a) :
    a.criteria_met = resp.total_criteria_met ∧
      a.total_criteria = info.criteria.length ∧
      a.criteria_met_percentage =
        pythonRound1 ((a.criteria_met : ℚ) / (a.total_criteria : ℚ) * 100) ∧
      a.meets_diagnostic_threshold = resp.meets_threshold ∧
      a.confidence_level = resp.confidence := by
  simp only [analyze_disorder_with_ai] at h
  split at h
  · exact absurd h (by simp)
  · split at h
    · exact absurd h (by simp)
    · rw [Option.some.injEq] at h
      subst h
      exact ⟨rfl, rfl, rfl, rfl, rfl⟩

/-- Witness for C8 (amended) at a concrete condition and response. -/
theorem analyze_disorder_with_ai_fields_witness :
    analyze_disorder_with_ai "Test Disorder" infoAI respBad = some aAI ∧
      aAI.criteria_met_percentage =
        pythonRound1 ((aAI.criteria_met : ℚ) / (aAI.total_criteria : ℚ) * 100) ∧
      aAI.meets_diagnostic_threshold = respBad.meets_threshold ∧
      aAI.confidence_level = respBad.confidence :=
  ⟨rfl,
    (analyze_disorder_with_ai_fields "Test Disorder" infoAI respBad aAI rfl).2.2.1,
    (analyze_disorder_with_ai_fields "Test Disorder" infoAI respBad aAI rfl).2.2.2.1,
    (analyze_disorder_with_ai_fields "Test Disorder" infoAI respBad aAI rfl).2.2.2.2⟩

/-! ## C5 — multi-part merge order -/

/-- C5's numeric merge order is violated: with part files `message_2.json`
and `message_10.json` in one thread folder, the loader's lexicographic
`sorted` puts `message_10.json` first, so part 10's messages precede part
2's in the merged thread (ascending numeric order would put `m2` first). -/
theorem load_instagram_export_part10_before_part2 :
    find_message_files fs5 "root" =
        .ok ["root/conv/message_10.json", "root/conv/message_2.json"] ∧
      load_instagram_export fs5 "root" =
        .ok [("conv", { participants := [partA, partB]
                        messages := [m10, m2], title := "Sam" })] :=
  ⟨rfl, rfl⟩

/-! ## C6 — no message files found -/

/-- C6 is violated for an existing directory with no JSON files at any
depth: `find_message_files` returns an empty list instead of raising
`FileNotFoundError`, so `load_instagram_export` returns an empty thread
mapping without error. -/
theorem find_message_files_empty_dir_no_error :
    find_message_files fs6 "empty" = .ok [] ∧
      load_instagram_export fs6 "empty" = .ok [] :=
  ⟨rfl, rfl⟩

/-! ## C9 — `parse_thread` filters blanks and sorts stably by timestamp -/

/-- Cleaning then filtering equals filtering blank-content messages and
mapping the record builder. -/
theorem filterMap_cleanMsg (patient_name : String) (l : List RawMsg) :
    l.filterMap (cleanMsg patient_name) =
      (l.filter fun m => !contentBlank (m.content.getD "")).map
        (cleanMsgCore patient_name) := by
  induction l with
  | nil => rfl
  | cons m t ih =>
    simp only [List.filterMap_cons, List.filter_cons, cleanMsg]
    by_cases hb : contentBlank (m.content.getD "") = true
    · simp [hb, ih]
    · have hb' : contentBlank (m.content.getD "") = false := Bool.eq_false_iff.mpr hb
      simp [hb', ih]

/-- C9: `parse_thread` returns exactly the input messages with non-blank
content (as cleaned records), sorted ascending by timestamp, and the sort
is stable — ties keep their relative input order, expressed as filter
preservation at every timestamp. -/
theorem parse_thread_filter_sort (td : ThreadData) (patient_name : String) :
    (parse_thread td patient_name).Perm
        ((td.messages.filter fun m => !contentBlank (m.content.getD "")).map
          (cleanMsgCore patient_name)) ∧
      (parse_thread td patient_name).Pairwise
        (fun x y => x.timestamp ≤ y.timestamp) ∧
      ∀ t : ℤ,
        (parse_thread td patient_name).filter
            (fun m => decide (m.timestamp = t)) =
          ((td.messages.filter fun m => !contentBlank (m.content.getD "")).map
            (cleanMsgCore patient_name)).filter
            (fun m => decide (m.timestamp = t)) := by
  have htot : ∀ x y : CleanMsg,
      (decide (x.timestamp ≤ y.timestamp)) = false →
      (decide (y.timestamp ≤ x.timestamp)) = true := by
    intro x y hxy
    rw [decide_eq_false_iff_not] at hxy
    exact decide_eq_true (le_of_not_le hxy)
  have htrans : ∀ x y z : CleanMsg,
      (decide (x.timestamp ≤ y.timestamp)) = true →
      (decide (y.timestamp ≤ z.timestamp)) = true →
      (decide (x.timestamp ≤ z.timestamp)) = true := by
    intro x y z h1 h2
    exact decide_eq_true (le_trans (of_decide_eq_true h1) (of_decide_eq_true h2))
  unfold parse_thread
  rw [filterMap_cleanMsg patient_name td.messages]
  refine ⟨sSort_perm _ _, ?_, ?_⟩
  · exact (sSort_pairwise _ htot htrans _).imp fun hb => of_decide_eq_true hb
  · intro t
    refine sSort_filter _ _ ?_ _
    intro x y hxy hx
    rw [decide_eq_false_iff_not] at hxy
    rw [decide_eq_true_eq] at hx
    exact decide_eq_false fun hy => hxy (le_of_eq (hx.trans hy.symm))

end PsychoAnalyzer
